import Mathlib

/-!
Verification of the forecast aggregation pipeline, site registry, fetcher and
advisory rendering of the Streamlit weather/health-advisory app (`app.py`).

Numeric values are modelled as rationals (`ℚ`); timestamps as natural numbers
counting hours since the Unix epoch, so the UTC calendar day of a timestamp is
`t / 24`.  Pandas operations are modelled by their documented semantics:
`join(how='inner')` keeps index values present on both sides, and
`resample('D')` produces one bin per calendar day in the closed range from the
first to the last day of the index (empty bins included, with missing
aggregates — pandas NaN — modelled as `Option.none`, and `sum` of an empty bin
equal to `0` as pandas computes it).
-/

/-- Payload of the weather API response (`weather_data['hourly']`):
parallel arrays of timestamps and hourly values. -/
structure WeatherPayload where
  time : List Nat
  temperature_2m : List ℚ
  relativehumidity_2m : List ℚ
  rain : List ℚ
  windspeed_10m : List ℚ
deriving DecidableEq

/-- Payload of the air-quality API response (`aqi_data['hourly']`). -/
structure AqiPayload where
  time : List Nat
  us_aqi : List ℚ
deriving DecidableEq

/-- A row of the weather DataFrame after `set_index('time')`. -/
structure WRow where
  t : Nat
  temp : ℚ
  hum : ℚ
  rain : ℚ
  wind : ℚ
deriving DecidableEq

/-- A row of the joined hourly table (`hourly_df`): weather fields plus AQI. -/
structure HourlyRow where
  t : Nat
  temp : ℚ
  hum : ℚ
  rain : ℚ
  wind : ℚ
  aqi : ℚ
deriving DecidableEq

/-- `pd.DataFrame(weather_data['hourly'])` followed by `set_index('time')`:
rows pair each timestamp with the hourly values at the same position. -/
def weatherRows (w : WeatherPayload) : List WRow :=
  (w.time.zip (w.temperature_2m.zip (w.relativehumidity_2m.zip
      (w.rain.zip w.windspeed_10m)))).map
    (fun p => ⟨p.1, p.2.1, p.2.2.1, p.2.2.2.1, p.2.2.2.2⟩)

/-- `pd.DataFrame(aqi_data['hourly'])` with `set_index('time')`. -/
def aqiRows (a : AqiPayload) : List (Nat × ℚ) :=
  a.time.zip a.us_aqi

/-- `weather_df.join(aqi_df, how='inner')`: every weather row is matched with
every air-quality row carrying the same timestamp; unmatched rows drop. -/
def joinHourly (wr : List WRow) (ar : List (Nat × ℚ)) : List HourlyRow :=
  wr.flatMap (fun r =>
    (ar.filter (fun p => p.1 = r.t)).map
      (fun p => ⟨r.t, r.temp, r.hum, r.rain, r.wind, p.2⟩))

/-- UTC calendar day of a timestamp measured in hours since the epoch. -/
def dayOf (t : Nat) : Nat := t / 24

/-- Minimum of a column, `none` on an empty group (pandas NaN). -/
def listMin (l : List ℚ) : Option ℚ :=
  match l with
  | [] => none
  | x :: xs => some (xs.foldl min x)

/-- Maximum of a column, `none` on an empty group (pandas NaN). -/
def listMax (l : List ℚ) : Option ℚ :=
  match l with
  | [] => none
  | x :: xs => some (xs.foldl max x)

/-- Civil date (year, month, day) of a day count since 1970-01-01,
following the standard days-to-civil conversion used by datetime libraries. -/
def civilFromDays (z0 : Nat) : Nat × Nat × Nat :=
  let z := z0 + 719468
  let era := z / 146097
  let doe := z % 146097
  let yoe := (doe - doe / 1460 + doe / 36524 - doe / 146096) / 365
  let y := yoe + era * 400
  let doy := doe - (365 * yoe + yoe / 4 - yoe / 100)
  let mp := (5 * doy + 2) / 153
  let d := doy - (153 * mp + 2) / 5 + 1
  let m := if mp < 10 then mp + 3 else mp - 9
  (if m ≤ 2 then y + 1 else y, m, d)

/-- Zero-pad to two digits, as `%m` / `%d` do. -/
def pad2 (n : Nat) : String :=
  if n < 10 then "0" ++ toString n else toString n

/-- Zero-pad to four digits, as `%Y` does for common-era years. -/
def pad4 (n : Nat) : String :=
  if n < 10 then "000" ++ toString n
  else if n < 100 then "00" ++ toString n
  else if n < 1000 then "0" ++ toString n
  else toString n

/-- `strftime('%Y-%m-%d')` applied to a day count since the epoch. -/
def formatDay (d : Nat) : String :=
  let c := civilFromDays d
  pad4 c.1 ++ "-" ++ pad2 c.2.1 ++ "-" ++ pad2 c.2.2

/-- A row of `summary_df`: the formatted date key plus the eight aggregates.
`min`/`max`/`mean` of an empty bin are pandas NaN, modelled as `none`;
pandas `sum` of an empty bin is `0`, so `rain_sum` is total. -/
structure SummaryRow where
  date : String
  day : Nat
  temp_min : Option ℚ
  temp_max : Option ℚ
  hum_min : Option ℚ
  hum_max : Option ℚ
  aqi_min : Option ℚ
  aqi_max : Option ℚ
  wind_mean : Option ℚ
  rain_sum : ℚ
deriving DecidableEq

/-- The aggregation dictionary of `resample('D').agg(...)` applied to the
group of hourly rows falling on day `d`. -/
def mkSummaryRow (d : Nat) (g : List HourlyRow) : SummaryRow :=
  { date := formatDay d
    day := d
    temp_min := listMin (g.map (fun x => x.temp))
    temp_max := listMax (g.map (fun x => x.temp))
    hum_min := listMin (g.map (fun x => x.hum))
    hum_max := listMax (g.map (fun x => x.hum))
    aqi_min := listMin (g.map (fun x => x.aqi))
    aqi_max := listMax (g.map (fun x => x.aqi))
    wind_mean :=
      if g.isEmpty then none
      else some ((g.map (fun x => x.wind)).sum / (g.length : ℚ))
    rain_sum := (g.map (fun x => x.rain)).sum }

/-- The group of hourly rows falling on calendar day `d` (the content of the
daily bin for `d`). -/
def groupOn (h : List HourlyRow) (d : Nat) : List HourlyRow :=
  h.filter (fun x => dayOf x.t = d)

/-- Earliest calendar day appearing in the hourly table (0 when empty). -/
def minDayOf : List HourlyRow → Nat
  | [] => 0
  | r :: rs => (rs.map (fun x => dayOf x.t)).foldl min (dayOf r.t)

/-- Latest calendar day appearing in the hourly table (0 when empty). -/
def maxDayOf : List HourlyRow → Nat
  | [] => 0
  | r :: rs => (rs.map (fun x => dayOf x.t)).foldl max (dayOf r.t)

/-- `hourly_df.resample('D').agg(...)` with the index then formatted by
`strftime('%Y-%m-%d')`: one bin per calendar day from the first to the last
day of the index, each aggregated by `mkSummaryRow`. -/
def resampleDaily (h : List HourlyRow) : List SummaryRow :=
  if h.isEmpty then []
  else
    (List.range (maxDayOf h - minDayOf h + 1)).map
      (fun i => mkSummaryRow (minDayOf h + i) (groupOn h (minDayOf h + i)))

/-- The non-guard body of `process_data`: build both DataFrames, inner-join,
resample daily. -/
def processTables (w : WeatherPayload) (a : AqiPayload) :
    List HourlyRow × List SummaryRow :=
  let h := joinHourly (weatherRows w) (aqiRows a)
  (h, resampleDaily h)

/-- `process_data(weather_data, aqi_data)`: the guard
`if not weather_data or not aqi_data: return None, None` fires when either
payload is absent (falsy, as after a failed fetch); otherwise both tables
are computed and returned. -/
def process (w : Option WeatherPayload) (a : Option AqiPayload) :
    Option (List HourlyRow × List SummaryRow) :=
  match w, a with
  | some w, some a => some (processTables w a)
  | _, _ => none

/-! ## Site registry (session state plus the persisted sites file) -/

/-- Coordinates of a site, as stored in `sites.json` values. -/
structure Coord where
  latitude : ℚ
  longitude : ℚ
deriving DecidableEq

/-- The site mapping: an insertion-ordered name-to-coordinates dictionary. -/
abbrev Registry := List (String × Coord)

/-- The registry state visible to the handlers: `st.session_state.sites`
plus the contents of the persisted `sites.json` file. -/
structure AppState where
  sites : Registry
  storage : Registry
deriving DecidableEq

/-- Dictionary lookup `sites[name]` (first matching key). -/
def getSite (r : Registry) (n : String) : Option Coord :=
  match r with
  | [] => none
  | (k, v) :: rest => if k = n then some v else getSite rest n

/-- `sites[name]["latitude"] = x` on an existing key. -/
def setLat (r : Registry) (n : String) (x : ℚ) : Registry :=
  r.map (fun p => if p.1 = n then (p.1, { p.2 with latitude := x }) else p)

/-- `sites[name]["longitude"] = x` on an existing key. -/
def setLon (r : Registry) (n : String) (x : ℚ) : Registry :=
  r.map (fun p => if p.1 = n then (p.1, { p.2 with longitude := x }) else p)

/-- Dictionary assignment `sites[name] = coord`: replaces the value in place
when the key exists, appends otherwise. -/
def insertSite (r : Registry) (n : String) (c : Coord) : Registry :=
  if (getSite r n).isSome then
    r.map (fun p => if p.1 = n then (p.1, c) else p)
  else r ++ [(n, c)]

/-- Outcome of the Save Changes handler. -/
inductive UpdateResult where
  | success
  | invalidCoordinates
deriving DecidableEq

/-- Outcome of the Add Site form handler. -/
inductive AddResult where
  | success
  | invalidNumeric
  | ignored
deriving DecidableEq

/-- A text-input value: the raw string (for the truthiness guard) and the
result of `float(...)` on it (`none` when parsing raises `ValueError`). -/
structure TextInput where
  raw : String
  parsed : Option ℚ
deriving DecidableEq

/-- The Save Changes handler: assigns `float(lat_display)` to the selected
site's latitude, then `float(lon_display)` to its longitude, then calls
`save_sites` on the whole mapping; a `ValueError` from either `float`
aborts at that point and reports invalid coordinates.  Note the latitude
assignment has already happened when the longitude parse raises. -/
def saveChanges (st : AppState) (name : String)
    (latP lonP : Option ℚ) : UpdateResult × AppState :=
  match latP with
  | none => (UpdateResult.invalidCoordinates, st)
  | some la =>
    let sites1 := setLat st.sites name la
    match lonP with
    | none => (UpdateResult.invalidCoordinates, { st with sites := sites1 })
    | some lo =>
      let sites2 := setLon sites1 name lo
      (UpdateResult.success, { sites := sites2, storage := sites2 })

/-- The Add Site form handler: if all three fields are non-empty, evaluates
`float` on both coordinate fields (a `ValueError` leaves the mapping
untouched) and assigns the new entry into `st.session_state.sites`;
no call to `save_sites` is made. -/
def addSite (st : AppState) (name : String)
    (latI lonI : TextInput) : AddResult × AppState :=
  if name ≠ "" ∧ latI.raw ≠ "" ∧ lonI.raw ≠ "" then
    match latI.parsed, lonI.parsed with
    | some la, some lo =>
      (AddResult.success,
        { st with sites := insertSite st.sites name ⟨la, lo⟩ })
    | _, _ => (AddResult.invalidNumeric, st)
  else (AddResult.ignored, st)

/-! ## Forecast fetcher -/

/-- `fetch_forecast_data`: the weather request runs first; a transport error
or a `raise_for_status` failure on either request is caught by the single
`except` clause, which returns `(None, None)`.  Each argument is the outcome
of the corresponding HTTP request (`Except.error` carries the cause). -/
def fetchForecastData (wr : Except String WeatherPayload)
    (ar : Except String AqiPayload) :
    Option WeatherPayload × Option AqiPayload :=
  match wr with
  | Except.error _ => (none, none)
  | Except.ok w =>
    match ar with
    | Except.error _ => (none, none)
    | Except.ok a => (some w, some a)

/-! ## Advisory cache (`@st.cache_data(ttl=3600)` on
`get_health_recommendations`, keyed by the serialized summary string) -/

/-- Cache contents: each entry maps a key to its store time and value. -/
abbrev CacheList (α : Type) : Type := List (String × Nat × α)

/-- TTL of both caches in the source: 3600 seconds. -/
def cacheTTL : Nat := 3600

/-- A cached entry is served only while its age is below the TTL. -/
def cacheLookup {α : Type} (c : CacheList α) (key : String) (now : Nat) :
    Option α :=
  match c with
  | [] => none
  | (k, ts, v) :: rest =>
    if k = key ∧ now - ts < cacheTTL then some v else cacheLookup rest key now

/-- One call through the `st.cache_data` wrapper: a valid cached entry is
returned as-is; otherwise the wrapped function body runs and its result is
stored.  The boolean records whether the underlying service was invoked. -/
def callCached {α : Type} (svc : String → α) (c : CacheList α)
    (key : String) (now : Nat) : α × CacheList α × Bool :=
  match cacheLookup c key now with
  | some v => (v, c, false)
  | none => (svc key, (key, now, svc key) :: c, true)

/-- `get_health_recommendations.clear()`, run by the Reload Recommendations
button: the whole cache is dropped. -/
def clearCache {α : Type} (_ : CacheList α) : CacheList α := []

/-! ## Advisory rendering (the loop over the parsed Gemini response) -/

/-- The `recommendations` object of a response entry; any field may be
missing (`rec.get(..., 'N/A')` supplies the placeholder). -/
structure AdvRecs where
  children_and_elderly : Option String
  people_with_morbidities : Option String
  adults : Option String
deriving DecidableEq

/-- One entry of the parsed response array; `day` or the whole
`recommendations` object may be missing. -/
structure AdvEntry where
  day : Option String
  recommendations : Option AdvRecs
deriving DecidableEq

/-- One iteration of the rendering loop: append the entry's day (or 'N/A')
to the index and each audience text (or 'N/A') to its column. -/
def renderStep (acc : List String × List String × List String × List String)
    (rec : AdvEntry) :
    List String × List String × List String × List String :=
  (acc.1 ++ [rec.day.getD "N/A"],
   acc.2.1 ++ [((rec.recommendations.bind
      (fun r => r.children_and_elderly)).getD "N/A")],
   acc.2.2.1 ++ [((rec.recommendations.bind
      (fun r => r.people_with_morbidities)).getD "N/A")],
   acc.2.2.2 ++ [((rec.recommendations.bind
      (fun r => r.adults)).getD "N/A")])

/-- The rendering loop over the parsed response: builds `index_dates` and
the three audience columns of `rec_df`. -/
def renderRecommendations (recs : List AdvEntry) :
    List String × List String × List String × List String :=
  recs.foldl renderStep ([], [], [], [])

/-! ## Spec-side predicates and concrete fixtures -/

/-- `o` is the least element of `l` (and `l` is non-empty). -/
def isLeastOf (o : Option ℚ) (l : List ℚ) : Prop :=
  ∃ m, o = some m ∧ m ∈ l ∧ ∀ y ∈ l, m ≤ y

/-- `o` is the greatest element of `l` (and `l` is non-empty). -/
def isGreatestOf (o : Option ℚ) (l : List ℚ) : Prop :=
  ∃ m, o = some m ∧ m ∈ l ∧ ∀ y ∈ l, y ≤ m

/-- Spec-side description of the daily summary as claim C1 has to be amended:
the summary has exactly one row per calendar day in the inclusive range from
the earliest to the latest day of the hourly table, keyed by the day formatted
`YYYY-MM-DD`; on every day actually present in the hourly table the row holds
the min/max of temperature, humidity and AQI, the arithmetic mean of wind and
the sum of rain over that day's hourly rows. -/
def DailySummarySpec (h : List HourlyRow) (s : List SummaryRow) : Prop :=
  s.map (fun r => r.day) =
    (List.range (maxDayOf h - minDayOf h + 1)).map (fun i => minDayOf h + i) ∧
  (s.map (fun r => r.day)).Nodup ∧
  (∀ r ∈ s, r.date = formatDay r.day) ∧
  (∀ d, (∃ x ∈ h, dayOf x.t = d) →
    ∃ r ∈ s, r.day = d ∧
      isLeastOf r.temp_min ((groupOn h d).map (fun x => x.temp)) ∧
      isGreatestOf r.temp_max ((groupOn h d).map (fun x => x.temp)) ∧
      isLeastOf r.hum_min ((groupOn h d).map (fun x => x.hum)) ∧
      isGreatestOf r.hum_max ((groupOn h d).map (fun x => x.hum)) ∧
      isLeastOf r.aqi_min ((groupOn h d).map (fun x => x.aqi)) ∧
      isGreatestOf r.aqi_max ((groupOn h d).map (fun x => x.aqi)) ∧
      r.wind_mean = some (((groupOn h d).map (fun x => x.wind)).sum /
        ((groupOn h d).length : ℚ)) ∧
      r.rain_sum = ((groupOn h d).map (fun x => x.rain)).sum)

/-- Spec-side invariant of claim C2 as amended: on every day actually present
in the hourly table, the summary row's min field is at most its max field for
temperature, humidity and AQI; and whenever every hourly rain value is
non-negative, every row's rain sum is non-negative. -/
def SummaryInvariantSpec (h : List HourlyRow) (s : List SummaryRow) : Prop :=
  ∀ r ∈ s,
    ((∃ x ∈ h, dayOf x.t = r.day) →
      (∃ m M, r.temp_min = some m ∧ r.temp_max = some M ∧ m ≤ M) ∧
      (∃ m M, r.hum_min = some m ∧ r.hum_max = some M ∧ m ≤ M) ∧
      (∃ m M, r.aqi_min = some m ∧ r.aqi_max = some M ∧ m ≤ M)) ∧
    ((∀ x ∈ h, 0 ≤ x.rain) → 0 ≤ r.rain_sum)

/-- The spec's worked example: four hourly timestamps, all on 2024-06-01
(day 19875 since the epoch), temperatures `[20,22,19,25]`,
humidity `[50,55,48,60]`, wind `[10,12,14,16]`, no rain. -/
def exW : WeatherPayload :=
  { time := [477000, 477001, 477002, 477003]
    temperature_2m := [20, 22, 19, 25]
    relativehumidity_2m := [50, 55, 48, 60]
    rain := [0, 0, 0, 0]
    windspeed_10m := [10, 12, 14, 16] }

/-- Matching air-quality payload of the worked example: AQI `[30,35,28,40]`. -/
def exA : AqiPayload :=
  { time := [477000, 477001, 477002, 477003], us_aqi := [30, 35, 28, 40] }

/-- Weather payload whose two samples fall on day 0 and day 2, with no sample
on day 1 (hours 0 and 48 since the epoch). -/
def gapW : WeatherPayload :=
  { time := [0, 48]
    temperature_2m := [20, 25]
    relativehumidity_2m := [50, 60]
    rain := [1, 2]
    windspeed_10m := [10, 16] }

/-- Matching air-quality payload for the day-gap example. -/
def gapA : AqiPayload :=
  { time := [0, 48], us_aqi := [30, 40] }

/-- Weather payload carrying a negative hourly rain value. -/
def negRainW : WeatherPayload :=
  { time := [0]
    temperature_2m := [20]
    relativehumidity_2m := [50]
    rain := [-1]
    windspeed_10m := [10] }

/-- Matching air-quality payload for the negative-rain example. -/
def negRainA : AqiPayload :=
  { time := [0], us_aqi := [30] }

/-- A truthy weather payload whose series contain no samples. -/
def emptyW : WeatherPayload :=
  { time := [], temperature_2m := [], relativehumidity_2m := []
    rain := [], windspeed_10m := [] }

/-- A truthy air-quality payload whose series contains no samples. -/
def emptyA : AqiPayload := { time := [], us_aqi := [] }

/-- Weather payload with timestamps 0 and 1 (for the join witness). -/
def misW : WeatherPayload :=
  { time := [0, 1]
    temperature_2m := [20, 21]
    relativehumidity_2m := [50, 51]
    rain := [0, 0]
    windspeed_10m := [10, 11] }

/-- Air-quality payload with timestamps 1 and 2: timestamp 0 has no match. -/
def misA : AqiPayload := { time := [1, 2], us_aqi := [30, 40] }

/-- A registry holding the single site Lakeview at integer test coordinates
(12, 77): in-range, like the spec example's (12.97, 77.59). -/
def lakeRegistry : Registry :=
  [("Lakeview", { latitude := 12, longitude := 77 })]

/-- App state whose session registry and storage both hold `lakeRegistry`. -/
def lakeState : AppState :=
  { sites := lakeRegistry, storage := lakeRegistry }

/-! ## General lemmas on fold-based minima and maxima -/

theorem foldl_min_le_init {α : Type} [LinearOrder α] (l : List α) (a : α) :
    l.foldl min a ≤ a := by
  induction l generalizing a with
  | nil => exact le_refl a
  | cons b t ih =>
    exact le_trans (ih (min a b)) (min_le_left a b)

theorem foldl_min_le_mem {α : Type} [LinearOrder α] (l : List α) (a x : α)
    (hx : x ∈ l) : l.foldl min a ≤ x := by
  induction l generalizing a with
  | nil => cases hx
  | cons b t ih =>
    rcases List.mem_cons.mp hx with h | h
    · subst h
      exact le_trans (foldl_min_le_init t (min a x)) (min_le_right a x)
    · exact ih (min a b) h

theorem foldl_min_mem {α : Type} [LinearOrder α] (l : List α) (a : α) :
    l.foldl min a = a ∨ l.foldl min a ∈ l := by
  induction l generalizing a with
  | nil => exact Or.inl rfl
  | cons b t ih =>
    rcases ih (min a b) with h | h
    · rcases le_total a b with hab | hab
      · exact Or.inl (by rw [show (b :: t).foldl min a = t.foldl min (min a b) from rfl, h, min_eq_left hab])
      · exact Or.inr (by rw [show (b :: t).foldl min a = t.foldl min (min a b) from rfl, h, min_eq_right hab]; exact List.mem_cons_self b t)
    · exact Or.inr (List.mem_cons_of_mem b h)

theorem init_le_foldl_max {α : Type} [LinearOrder α] (l : List α) (a : α) :
    a ≤ l.foldl max a := by
  induction l generalizing a with
  | nil => exact le_refl a
  | cons b t ih =>
    exact le_trans (le_max_left a b) (ih (max a b))

theorem mem_le_foldl_max {α : Type} [LinearOrder α] (l : List α) (a x : α)
    (hx : x ∈ l) : x ≤ l.foldl max a := by
  induction l generalizing a with
  | nil => cases hx
  | cons b t ih =>
    rcases List.mem_cons.mp hx with h | h
    · subst h
      exact le_trans (le_max_right a x) (init_le_foldl_max t (max a x))
    · exact ih (max a b) h

theorem foldl_max_mem {α : Type} [LinearOrder α] (l : List α) (a : α) :
    l.foldl max a = a ∨ l.foldl max a ∈ l := by
  induction l generalizing a with
  | nil => exact Or.inl rfl
  | cons b t ih =>
    rcases ih (max a b) with h | h
    · rcases le_total a b with hab | hab
      · exact Or.inr (by rw [show (b :: t).foldl max a = t.foldl max (max a b) from rfl, h, max_eq_right hab]; exact List.mem_cons_self b t)
      · exact Or.inl (by rw [show (b :: t).foldl max a = t.foldl max (max a b) from rfl, h, max_eq_left hab])
    · exact Or.inr (List.mem_cons_of_mem b h)

theorem listMin_spec (l : List ℚ) (hne : l ≠ []) : isLeastOf (listMin l) l := by
  match l with
  | [] => exact absurd rfl hne
  | x :: xs =>
    refine ⟨xs.foldl min x, rfl, ?_, ?_⟩
    · rcases foldl_min_mem xs x with h | h
      · rw [h]; exact List.mem_cons_self x xs
      · exact List.mem_cons_of_mem x h
    · intro y hy
      rcases List.mem_cons.mp hy with h | h
      · subst h; exact foldl_min_le_init xs y
      · exact foldl_min_le_mem xs x y h

theorem listMax_spec (l : List ℚ) (hne : l ≠ []) : isGreatestOf (listMax l) l := by
  match l with
  | [] => exact absurd rfl hne
  | x :: xs =>
    refine ⟨xs.foldl max x, rfl, ?_, ?_⟩
    · rcases foldl_max_mem xs x with h | h
      · rw [h]; exact List.mem_cons_self x xs
      · exact List.mem_cons_of_mem x h
    · intro y hy
      rcases List.mem_cons.mp hy with h | h
      · subst h; exact init_le_foldl_max xs y
      · exact mem_le_foldl_max xs x y h

/-! ## Lemmas about the daily resampling -/

theorem minDayOf_le (h : List HourlyRow) (x : HourlyRow) (hx : x ∈ h) :
    minDayOf h ≤ dayOf x.t := by
  match h with
  | [] => cases hx
  | r :: rs =>
    rcases List.mem_cons.mp hx with he | he
    · subst he
      exact foldl_min_le_init (rs.map (fun y => dayOf y.t)) (dayOf x.t)
    · exact foldl_min_le_mem (rs.map (fun y => dayOf y.t)) (dayOf r.t)
        (dayOf x.t) (List.mem_map_of_mem (fun y => dayOf y.t) he)

theorem le_maxDayOf (h : List HourlyRow) (x : HourlyRow) (hx : x ∈ h) :
    dayOf x.t ≤ maxDayOf h := by
  match h with
  | [] => cases hx
  | r :: rs =>
    rcases List.mem_cons.mp hx with he | he
    · subst he
      exact init_le_foldl_max (rs.map (fun y => dayOf y.t)) (dayOf x.t)
    · exact mem_le_foldl_max (rs.map (fun y => dayOf y.t)) (dayOf r.t)
        (dayOf x.t) (List.mem_map_of_mem (fun y => dayOf y.t) he)

theorem resampleDaily_eq (h : List HourlyRow) (hne : h ≠ []) :
    resampleDaily h =
      (List.range (maxDayOf h - minDayOf h + 1)).map
        (fun i => mkSummaryRow (minDayOf h + i) (groupOn h (minDayOf h + i))) := by
  unfold resampleDaily
  rw [if_neg]
  simp [List.isEmpty_iff, hne]

theorem mem_resampleDaily (h : List HourlyRow) (hne : h ≠ []) (r : SummaryRow) :
    r ∈ resampleDaily h ↔
      ∃ i, i < maxDayOf h - minDayOf h + 1 ∧
        r = mkSummaryRow (minDayOf h + i) (groupOn h (minDayOf h + i)) := by
  rw [resampleDaily_eq h hne]
  simp only [List.mem_map, List.mem_range]
  constructor
  · rintro ⟨i, hi, he⟩
    exact ⟨i, hi, he.symm⟩
  · rintro ⟨i, hi, he⟩
    exact ⟨i, hi, he.symm⟩

/-- A non-empty daily bin satisfies the full aggregate description. -/
theorem mkSummaryRow_spec (d : Nat) (g : List HourlyRow) (hg : g ≠ []) :
    isLeastOf (mkSummaryRow d g).temp_min (g.map (fun x => x.temp)) ∧
    isGreatestOf (mkSummaryRow d g).temp_max (g.map (fun x => x.temp)) ∧
    isLeastOf (mkSummaryRow d g).hum_min (g.map (fun x => x.hum)) ∧
    isGreatestOf (mkSummaryRow d g).hum_max (g.map (fun x => x.hum)) ∧
    isLeastOf (mkSummaryRow d g).aqi_min (g.map (fun x => x.aqi)) ∧
    isGreatestOf (mkSummaryRow d g).aqi_max (g.map (fun x => x.aqi)) ∧
    (mkSummaryRow d g).wind_mean =
      some ((g.map (fun x => x.wind)).sum / (g.length : ℚ)) ∧
    (mkSummaryRow d g).rain_sum = (g.map (fun x => x.rain)).sum := by
  have hmap : ∀ f : HourlyRow → ℚ, g.map f ≠ [] := by
    intro f hmap
    exact hg (List.map_eq_nil_iff.mp hmap)
  refine ⟨listMin_spec _ (hmap _), listMax_spec _ (hmap _),
    listMin_spec _ (hmap _), listMax_spec _ (hmap _),
    listMin_spec _ (hmap _), listMax_spec _ (hmap _), ?_, rfl⟩
  simp only [mkSummaryRow]
  rw [if_neg]
  simp [List.isEmpty_iff, hg]

/-! ## Lemmas about the inner join and the DataFrame construction -/

theorem mem_joinHourly_times (wr : List WRow) (ar : List (Nat × ℚ)) (t : Nat) :
    t ∈ (joinHourly wr ar).map (fun x => x.t) ↔
      t ∈ wr.map (fun x => x.t) ∧ t ∈ ar.map (fun p => p.1) := by
  simp only [joinHourly, List.mem_map, List.mem_flatMap, List.mem_filter]
  constructor
  · rintro ⟨row, ⟨r, hr, p, ⟨hp, hpt⟩, he⟩, hrt⟩
    subst he
    refine ⟨⟨r, hr, hrt⟩, p, hp, ?_⟩
    have h1 : p.1 = r.t := of_decide_eq_true hpt
    have h2 : r.t = t := hrt
    rw [h1, h2]
  · rintro ⟨⟨r, hr, hrt⟩, p, hp, hpt⟩
    refine ⟨⟨r.t, r.temp, r.hum, r.rain, r.wind, p.2⟩, ⟨r, hr, p, ⟨hp, ?_⟩, rfl⟩, hrt⟩
    have h2 : r.t = t := hrt
    rw [h2, hpt]
    exact decide_eq_true rfl

theorem weatherRows_times (w : WeatherPayload)
    (h1 : w.temperature_2m.length = w.time.length)
    (h2 : w.relativehumidity_2m.length = w.time.length)
    (h3 : w.rain.length = w.time.length)
    (h4 : w.windspeed_10m.length = w.time.length) :
    (weatherRows w).map (fun x => x.t) = w.time := by
  unfold weatherRows
  rw [List.map_map]
  have hle : w.time.length ≤ (w.temperature_2m.zip (w.relativehumidity_2m.zip
      (w.rain.zip w.windspeed_10m))).length := by
    simp only [List.length_zip]
    omega
  exact List.map_fst_zip _ _ hle

theorem aqiRows_times (a : AqiPayload)
    (h5 : a.us_aqi.length = a.time.length) :
    (aqiRows a).map (fun p => p.1) = a.time := by
  unfold aqiRows
  exact List.map_fst_zip _ _ (le_of_eq h5.symm)


/-! ## Lemmas about the registry dictionary operations -/

theorem getSite_setLat (r : Registry) (n : String) (x : ℚ) :
    getSite (setLat r n x) n =
      (getSite r n).map (fun c => { c with latitude := x }) := by
  induction r with
  | nil => rfl
  | cons p rest ih =>
    obtain ⟨k, v⟩ := p
    simp only [setLat, List.map_cons] at ih ⊢
    by_cases hk : k = n
    · subst hk
      rw [show (if (k, v).1 = k then ((k, v).1, { (k, v).2 with latitude := x }) else (k, v)) = (k, { v with latitude := x }) from if_pos rfl]
      simp [getSite]
    · rw [show (if (k, v).1 = n then ((k, v).1, { (k, v).2 with latitude := x }) else (k, v)) = (k, v) from if_neg hk]
      simp only [getSite, if_neg hk]
      exact ih

theorem getSite_setLon (r : Registry) (n : String) (x : ℚ) :
    getSite (setLon r n x) n =
      (getSite r n).map (fun c => { c with longitude := x }) := by
  induction r with
  | nil => rfl
  | cons p rest ih =>
    obtain ⟨k, v⟩ := p
    simp only [setLon, List.map_cons] at ih ⊢
    by_cases hk : k = n
    · subst hk
      rw [show (if (k, v).1 = k then ((k, v).1, { (k, v).2 with longitude := x }) else (k, v)) = (k, { v with longitude := x }) from if_pos rfl]
      simp [getSite]
    · rw [show (if (k, v).1 = n then ((k, v).1, { (k, v).2 with longitude := x }) else (k, v)) = (k, v) from if_neg hk]
      simp only [getSite, if_neg hk]
      exact ih

theorem getSite_replace (r : Registry) (n : String) (c : Coord)
    (hs : (getSite r n).isSome) :
    getSite (r.map (fun p => if p.1 = n then (p.1, c) else p)) n = some c := by
  induction r with
  | nil => simp [getSite] at hs
  | cons p rest ih =>
    obtain ⟨k, v⟩ := p
    simp only [List.map_cons]
    by_cases hk : k = n
    · subst hk
      rw [show (if (k, v).1 = k then ((k, v).1, c) else (k, v)) = (k, c) from if_pos rfl]
      simp [getSite]
    · rw [show (if (k, v).1 = n then ((k, v).1, c) else (k, v)) = (k, v) from if_neg hk]
      simp only [getSite, if_neg hk] at hs ⊢
      exact ih hs

theorem getSite_append_absent (r : Registry) (n : String) (c : Coord)
    (hn : getSite r n = none) :
    getSite (r ++ [(n, c)]) n = some c := by
  induction r with
  | nil => simp [getSite]
  | cons p rest ih =>
    obtain ⟨k, v⟩ := p
    by_cases hk : k = n
    · simp only [getSite, if_pos hk] at hn
      exact absurd hn (by simp)
    · simp only [List.cons_append, getSite, if_neg hk] at hn ⊢
      exact ih hn

theorem getSite_insertSite (r : Registry) (n : String) (c : Coord) :
    getSite (insertSite r n c) n = some c := by
  unfold insertSite
  by_cases hs : (getSite r n).isSome
  · rw [if_pos hs]
    exact getSite_replace r n c hs
  · rw [if_neg hs]
    exact getSite_append_absent r n c (Option.not_isSome_iff_eq_none.mp hs)

/-! ## Lemma about the rendering loop -/

theorem renderRecommendations_eq (recs : List AdvEntry) :
    renderRecommendations recs =
      (recs.map (fun rec => rec.day.getD "N/A"),
       recs.map (fun rec => ((rec.recommendations.bind
          (fun r => r.children_and_elderly)).getD "N/A")),
       recs.map (fun rec => ((rec.recommendations.bind
          (fun r => r.people_with_morbidities)).getD "N/A")),
       recs.map (fun rec => ((rec.recommendations.bind
          (fun r => r.adults)).getD "N/A"))) := by
  have key : ∀ (l : List AdvEntry)
      (acc : List String × List String × List String × List String),
      l.foldl renderStep acc =
        (acc.1 ++ l.map (fun rec => rec.day.getD "N/A"),
         acc.2.1 ++ l.map (fun rec => ((rec.recommendations.bind
            (fun r => r.children_and_elderly)).getD "N/A")),
         acc.2.2.1 ++ l.map (fun rec => ((rec.recommendations.bind
            (fun r => r.people_with_morbidities)).getD "N/A")),
         acc.2.2.2 ++ l.map (fun rec => ((rec.recommendations.bind
            (fun r => r.adults)).getD "N/A"))) := by
    intro l
    induction l with
    | nil => intro acc; simp
    | cons e t ih =>
      intro acc
      simp only [List.foldl_cons, ih, renderStep, List.map_cons,
        List.append_assoc, List.singleton_append]
  simpa using key recs ([], [], [], [])

/-- The daily resampling of a non-empty hourly table satisfies the amended
daily-summary description. -/
theorem resampleDaily_master (h : List HourlyRow) (hne : h ≠ []) :
    DailySummarySpec h (resampleDaily h) := by
  have heq := resampleDaily_eq h hne
  have hdays : (resampleDaily h).map (fun r => r.day) =
      (List.range (maxDayOf h - minDayOf h + 1)).map
        (fun i => minDayOf h + i) := by
    rw [heq, List.map_map]
    rfl
  refine ⟨hdays, ?_, ?_, ?_⟩
  · rw [hdays]
    exact List.Nodup.map (fun a b hab => by omega) (List.nodup_range _)
  · intro r hr
    rw [heq] at hr
    obtain ⟨i, hi, he⟩ := List.mem_map.mp hr
    rw [← he]
    rfl
  · rintro d ⟨x, hx, hxd⟩
    have hd0 : minDayOf h ≤ d := hxd ▸ minDayOf_le h x hx
    have hd1 : d ≤ maxDayOf h := hxd ▸ le_maxDayOf h x hx
    have hxg : x ∈ groupOn h d :=
      List.mem_filter.mpr ⟨hx, decide_eq_true hxd⟩
    have hgne : groupOn h d ≠ [] := List.ne_nil_of_mem hxg
    refine ⟨mkSummaryRow d (groupOn h d), ?_, rfl,
      mkSummaryRow_spec d (groupOn h d) hgne⟩
    rw [heq]
    refine List.mem_map.mpr ⟨d - minDayOf h, List.mem_range.mpr (by omega), ?_⟩
    rw [show minDayOf h + (d - minDayOf h) = d from by omega]

/-- C1, counterexample: on the day-gap input (hourly samples on day 0 and
day 2 only), the daily summary holds a row whose day is present in no hourly
row — `resample('D')` materialises the empty day in between — refuting
"exactly one row per UTC calendar date present in the hourly table". -/
theorem daily_summary_extra_row_cex :
    ∃ r ∈ (processTables gapW gapA).2,
      ∀ x ∈ (processTables gapW gapA).1, dayOf x.t ≠ r.day := by
  decide

/-- C1 (amended): for a non-empty joined hourly table, the daily summary has
exactly one row per calendar day in the inclusive range from the earliest to
the latest day present (pandas `resample('D')` inserts an empty row for every
day of the range with no samples), keyed by the day formatted `YYYY-MM-DD`;
on every day actually present, temp/humidity/AQI min and max are the minimum
and maximum of that day's hourly values, wind mean is their arithmetic mean
and rain sum their sum. -/
theorem process_daily_summary (w : WeatherPayload) (a : AqiPayload)
    (hs : List HourlyRow × List SummaryRow)
    (hp : process (some w) (some a) = some hs)
    (hne : hs.1 ≠ []) : DailySummarySpec hs.1 hs.2 := by
  obtain ⟨h, s⟩ := hs
  simp only [process, processTables, Option.some.injEq, Prod.mk.injEq] at hp
  obtain ⟨h1, h2⟩ := hp
  subst h1
  subst h2
  exact resampleDaily_master _ hne

/-- C1, witness: the amended claim applied to the spec's worked example
(four hourly samples on 2024-06-01). -/
theorem process_daily_summary_witness :
    (processTables exW exA).1 ≠ [] ∧
      DailySummarySpec (processTables exW exA).1 (processTables exW exA).2 :=
  ⟨by decide, process_daily_summary exW exA (processTables exW exA) rfl (by decide)⟩

/-- C2, counterexample: nothing in `process_data` constrains the hourly rain
values, so an input series with a negative rain value produces a summary row
with a negative rain sum, refuting "rain_sum ≥ 0 ... from any pair of input
series". -/
theorem summary_negative_rain_cex :
    ∃ r ∈ (processTables negRainW negRainA).2, r.rain_sum < 0 := by
  have hne : joinHourly (weatherRows negRainW) (aqiRows negRainA) ≠ [] := by
    decide
  refine ⟨mkSummaryRow
      (minDayOf (joinHourly (weatherRows negRainW) (aqiRows negRainA)) + 0)
      (groupOn (joinHourly (weatherRows negRainW) (aqiRows negRainA))
        (minDayOf (joinHourly (weatherRows negRainW) (aqiRows negRainA)) + 0)),
    ?_, ?_⟩
  · exact (mem_resampleDaily _ hne _).mpr ⟨0, by decide, rfl⟩
  · have hg : groupOn (joinHourly (weatherRows negRainW) (aqiRows negRainA))
        (minDayOf (joinHourly (weatherRows negRainW) (aqiRows negRainA)) + 0) =
        [⟨0, 20, 50, -1, 10, 30⟩] := by decide
    rw [hg]
    norm_num [mkSummaryRow]

/-- C2 (amended): for every summary row on a day actually present in the
hourly table, temp_min ≤ temp_max, humidity_min ≤ humidity_max and
aqi_min ≤ aqi_max; and provided every hourly rain value is non-negative
(which the code never checks), every row's rain_sum is non-negative. -/
theorem process_summary_invariants (w : WeatherPayload) (a : AqiPayload)
    (hs : List HourlyRow × List SummaryRow)
    (hp : process (some w) (some a) = some hs) :
    SummaryInvariantSpec hs.1 hs.2 := by
  obtain ⟨h, s⟩ := hs
  simp only [process, processTables, Option.some.injEq, Prod.mk.injEq] at hp
  obtain ⟨h1, h2⟩ := hp
  subst h1
  subst h2
  intro r hr
  have hne : joinHourly (weatherRows w) (aqiRows a) ≠ [] := by
    intro hnil
    rw [hnil] at hr
    simp [resampleDaily] at hr
  rw [mem_resampleDaily _ hne r] at hr
  obtain ⟨i, hi, he⟩ := hr
  subst he
  constructor
  · rintro ⟨x, hx, hxd⟩
    have hxg : x ∈ groupOn (joinHourly (weatherRows w) (aqiRows a))
        (minDayOf (joinHourly (weatherRows w) (aqiRows a)) + i) :=
      List.mem_filter.mpr ⟨hx, decide_eq_true hxd⟩
    have hgne : groupOn (joinHourly (weatherRows w) (aqiRows a))
        (minDayOf (joinHourly (weatherRows w) (aqiRows a)) + i) ≠ [] :=
      List.ne_nil_of_mem hxg
    obtain ⟨s1, s2, s3, s4, s5, s6, _, _⟩ :=
      mkSummaryRow_spec (minDayOf (joinHourly (weatherRows w) (aqiRows a)) + i)
        _ hgne
    obtain ⟨m1, hm1, hmm1, hml1⟩ := s1
    obtain ⟨M1, hM1, hMm1, _⟩ := s2
    obtain ⟨m2, hm2, hmm2, hml2⟩ := s3
    obtain ⟨M2, hM2, hMm2, _⟩ := s4
    obtain ⟨m3, hm3, hmm3, hml3⟩ := s5
    obtain ⟨M3, hM3, hMm3, _⟩ := s6
    exact ⟨⟨m1, M1, hm1, hM1, hml1 M1 hMm1⟩,
      ⟨m2, M2, hm2, hM2, hml2 M2 hMm2⟩,
      ⟨m3, M3, hm3, hM3, hml3 M3 hMm3⟩⟩
  · intro hrain
    show 0 ≤ (mkSummaryRow _ _).rain_sum
    simp only [mkSummaryRow]
    apply List.sum_nonneg
    intro q hq
    obtain ⟨x, hxg, hxq⟩ := List.mem_map.mp hq
    have hxh : x ∈ joinHourly (weatherRows w) (aqiRows a) :=
      List.mem_of_mem_filter hxg
    rw [← hxq]
    exact hrain x hxh

/-- C2, witness: the amended invariant applied to the spec's worked example. -/
theorem process_summary_invariants_witness :
    process (some exW) (some exA) = some (processTables exW exA) ∧
      SummaryInvariantSpec (processTables exW exA).1 (processTables exW exA).2 :=
  ⟨rfl, process_summary_invariants exW exA (processTables exW exA) rfl⟩

/-- C3: the hourly table produced by `process` contains exactly the
timestamps present in both input series — an inner join; a timestamp present
in only one series is absent (and so contributes to no daily bin).  The
length hypotheses say the payload's arrays are parallel, as the APIs return
them. -/
theorem process_inner_join_times (w : WeatherPayload) (a : AqiPayload)
    (hs : List HourlyRow × List SummaryRow)
    (hp : process (some w) (some a) = some hs)
    (h1 : w.temperature_2m.length = w.time.length)
    (h2 : w.relativehumidity_2m.length = w.time.length)
    (h3 : w.rain.length = w.time.length)
    (h4 : w.windspeed_10m.length = w.time.length)
    (h5 : a.us_aqi.length = a.time.length)
    (t : Nat) :
    t ∈ hs.1.map (fun x => x.t) ↔ t ∈ w.time ∧ t ∈ a.time := by
  obtain ⟨h, s⟩ := hs
  simp only [process, processTables, Option.some.injEq, Prod.mk.injEq] at hp
  obtain ⟨e1, e2⟩ := hp
  subst e1
  subst e2
  rw [mem_joinHourly_times, weatherRows_times w h1 h2 h3 h4, aqiRows_times a h5]

/-- C3, witness: timestamp 0 is present in the weather series only, and the
inner-join description applied at it shows it absent from the hourly table. -/
theorem process_inner_join_times_witness :
    misW.temperature_2m.length = misW.time.length ∧
    misA.us_aqi.length = misA.time.length ∧
    (0 ∈ (processTables misW misA).1.map (fun x => x.t) ↔
      0 ∈ misW.time ∧ 0 ∈ misA.time) :=
  ⟨rfl, rfl, process_inner_join_times misW misA (processTables misW misA)
    rfl rfl rfl rfl rfl rfl 0⟩

/-- C4, counterexample: a truthy payload whose series are empty passes the
`if not weather_data or not aqi_data` guard, so `process` returns a pair of
empty tables, not the `EmptyResult` (`None, None`) outcome the claim
requires for empty input series. -/
theorem process_empty_series_cex :
    process (some emptyW) (some emptyA) = some ([], []) := by
  decide

/-- C4 (amended): `process` returns the no-data outcome (`None, None`)
exactly when an input payload is absent (falsy, as returned by a failed
fetch); a present payload whose sample series is empty instead yields an
empty hourly table and an empty daily summary. -/
theorem process_none_guard (w : Option WeatherPayload) (a : Option AqiPayload) :
    process w a = none ↔ (w = none ∨ a = none) := by
  cases w <;> cases a <;> simp [process]

/-- C4, witness: the guard description applied to an absent weather payload. -/
theorem process_none_guard_witness :
    process none (some exA) = none ↔
      ((none : Option WeatherPayload) = none ∨ some exA = none) :=
  process_none_guard none (some exA)

/-- C5, counterexample: the Save Changes handler validates nothing beyond
`float(...)` parsing, so the out-of-range update `update("Lakeview", 91, 77)`
(latitude 91 > 90) succeeds and mutates the stored coordinates, refuting
"returns InvalidCoordinates ... returns the pre-update coordinates
unchanged". -/
theorem update_out_of_range_cex :
    (saveChanges lakeState "Lakeview" (some 91) (some 77)).1 =
      UpdateResult.success ∧
    getSite ((saveChanges lakeState "Lakeview" (some 91) (some 77)).2).sites
      "Lakeview" = some { latitude := 91, longitude := 77 } := by
  decide

/-- C5 (amended): the Save Changes handler returns InvalidCoordinates only
when a coordinate fails numeric parsing (`float` raises `ValueError`); any
pair of parseable coordinates — however far out of range — is accepted and
stored.  When latitude fails to parse nothing is mutated, but when latitude
parses and longitude does not, the latitude assignment has already been
applied to the session registry (longitude retained). -/
theorem save_changes_parse_only (st : AppState) (name : String) (c : Coord)
    (la lo : ℚ) (lonP : Option ℚ)
    (hc : getSite st.sites name = some c) :
    ((saveChanges st name (some la) (some lo)).1 = UpdateResult.success ∧
      getSite ((saveChanges st name (some la) (some lo)).2).sites name =
        some { latitude := la, longitude := lo }) ∧
    ((saveChanges st name none lonP).1 = UpdateResult.invalidCoordinates ∧
      (saveChanges st name none lonP).2 = st) ∧
    ((saveChanges st name (some la) none).1 = UpdateResult.invalidCoordinates ∧
      getSite ((saveChanges st name (some la) none).2).sites name =
        some { latitude := la, longitude := c.longitude }) := by
  refine ⟨⟨rfl, ?_⟩, ⟨rfl, rfl⟩, ⟨rfl, ?_⟩⟩
  · show getSite (setLon (setLat st.sites name la) name lo) name = _
    rw [getSite_setLon, getSite_setLat, hc]
    rfl
  · show getSite (setLat st.sites name la) name = _
    rw [getSite_setLat, hc]
    rfl

/-- C5, witness: the amended description applied to the Lakeview registry
with the out-of-range latitude 91. -/
theorem save_changes_parse_only_witness :
    getSite lakeState.sites "Lakeview" =
      some { latitude := 12, longitude := 77 } ∧
    ((saveChanges lakeState "Lakeview" (some 91) (some 77)).1 =
        UpdateResult.success ∧
      getSite ((saveChanges lakeState "Lakeview" (some 91) (some 77)).2).sites
        "Lakeview" = some { latitude := 91, longitude := 77 }) ∧
    ((saveChanges lakeState "Lakeview" none none).1 =
        UpdateResult.invalidCoordinates ∧
      (saveChanges lakeState "Lakeview" none none).2 = lakeState) ∧
    ((saveChanges lakeState "Lakeview" (some 91) none).1 =
        UpdateResult.invalidCoordinates ∧
      getSite ((saveChanges lakeState "Lakeview" (some 91) none).2).sites
        "Lakeview" = some { latitude := 91, longitude := 77 }) :=
  ⟨rfl, save_changes_parse_only lakeState "Lakeview"
    { latitude := 12, longitude := 77 } 91 77 none rfl⟩

/-- C6, counterexample: the Add Site form performs no duplicate check — the
dict assignment silently overwrites — so adding the already-present name
"Lakeview" reports success and changes the existing coordinates, refuting
"returns DuplicateName and leaves the existing site's coordinates
unchanged". -/
theorem add_duplicate_overwrites_cex :
    (addSite lakeState "Lakeview" ⟨"3", some 3⟩ ⟨"4", some 4⟩).1 =
      AddResult.success ∧
    getSite ((addSite lakeState "Lakeview" ⟨"3", some 3⟩
        ⟨"4", some 4⟩).2).sites "Lakeview" =
      some { latitude := 3, longitude := 4 } := by
  decide

/-- C6 (amended): the Add Site handler never reports a duplicate: for any
non-empty form fields whose coordinates parse, it succeeds — whether or not
the name is already present — and afterwards the name maps to the new
coordinates (an existing entry is silently overwritten). -/
theorem add_site_no_duplicate_check (st : AppState) (name : String)
    (latI lonI : TextInput) (la lo : ℚ)
    (hn : name ≠ "") (h1 : latI.raw ≠ "") (h2 : lonI.raw ≠ "")
    (hla : latI.parsed = some la) (hlo : lonI.parsed = some lo) :
    (addSite st name latI lonI).1 = AddResult.success ∧
    getSite ((addSite st name latI lonI).2).sites name =
      some { latitude := la, longitude := lo } := by
  have hguard : name ≠ "" ∧ latI.raw ≠ "" ∧ lonI.raw ≠ "" := ⟨hn, h1, h2⟩
  refine ⟨?_, ?_⟩
  · simp only [addSite, if_pos hguard, hla, hlo]
  · simp only [addSite, if_pos hguard, hla, hlo]
    exact getSite_insertSite st.sites name { latitude := la, longitude := lo }

/-- C6, witness: the amended description applied to the duplicate name
"Lakeview". -/
theorem add_site_no_duplicate_check_witness :
    ("Lakeview" : String) ≠ "" ∧
    (addSite lakeState "Lakeview" ⟨"5", some 5⟩ ⟨"6", some 6⟩).1 =
      AddResult.success ∧
    getSite ((addSite lakeState "Lakeview" ⟨"5", some 5⟩
        ⟨"6", some 6⟩).2).sites "Lakeview" =
      some { latitude := 5, longitude := 6 } :=
  ⟨by decide, add_site_no_duplicate_check lakeState "Lakeview"
    ⟨"5", some 5⟩ ⟨"6", some 6⟩ 5 6 (by decide) (by decide) (by decide) rfl rfl⟩

/-- C7: a successful Save Changes run writes the full session registry back
to the sites file (`save_sites`), leaving storage identical to the session
registry; the Add Site handler never touches storage, whatever its input. -/
theorem update_persists_add_does_not (st : AppState) (name : String)
    (la lo : ℚ) (latI lonI : TextInput) :
    ((saveChanges st name (some la) (some lo)).1 = UpdateResult.success ∧
      (saveChanges st name (some la) (some lo)).2.storage =
        (saveChanges st name (some la) (some lo)).2.sites) ∧
    (addSite st name latI lonI).2.storage = st.storage := by
  refine ⟨⟨rfl, rfl⟩, ?_⟩
  obtain ⟨r1, p1⟩ := latI
  obtain ⟨r2, p2⟩ := lonI
  unfold addSite
  split
  · cases p1 <;> cases p2 <;> rfl
  · rfl

/-- C8: `fetch_forecast_data` either fails as a whole — any transport or
non-2xx failure of either request lands in the single `except` and returns
`(None, None)` — or returns both series; a partial result (one series
without the other) is impossible. -/
theorem fetch_all_or_nothing (wr : Except String WeatherPayload)
    (ar : Except String AqiPayload) :
    fetchForecastData wr ar = (none, none) ∨
      ∃ w a, wr = Except.ok w ∧ ar = Except.ok a ∧
        fetchForecastData wr ar = (some w, some a) := by
  cases wr with
  | error e => exact Or.inl rfl
  | ok w =>
    cases ar with
    | error e => exact Or.inl rfl
    | ok a => exact Or.inr ⟨w, a, rfl, rfl, rfl⟩

/-- C9: with the serialized-summary key not validly cached before the first
call, the first call invokes the generative service and stores its result;
a second call with the byte-identical key, no cache clear in between and
within the 3600-second TTL, returns the same result straight from the cache
with no second service invocation. -/
theorem cached_second_call (α : Type) (svc : String → α) (c : CacheList α)
    (key : String) (t1 t2 : Nat)
    (hmiss : cacheLookup c key t1 = none)
    (_hle : t1 ≤ t2) (httl : t2 - t1 < cacheTTL) :
    callCached svc ((callCached svc c key t1).2.1) key t2 =
      ((callCached svc c key t1).1, (callCached svc c key t1).2.1, false) := by
  have hfirst : callCached svc c key t1 =
      (svc key, (key, t1, svc key) :: c, true) := by
    simp only [callCached, hmiss]
  have hhit : cacheLookup ((key, t1, svc key) :: c) key t2 = some (svc key) := by
    show (if key = key ∧ t2 - t1 < cacheTTL then some (svc key)
        else cacheLookup c key t2) = some (svc key)
    exact if_pos ⟨rfl, httl⟩
  rw [hfirst]
  simp only [callCached, hhit]

/-- C9, witness: a fresh cache, key "k", first call at second 0 and second
call at second 5. -/
theorem cached_second_call_witness :
    cacheLookup ([] : CacheList Nat) "k" 0 = none ∧ 0 ≤ 5 ∧
      5 - 0 < cacheTTL ∧
      callCached (fun _ => 7) ((callCached (fun _ => 7)
          ([] : CacheList Nat) "k" 0).2.1) "k" 5 =
        ((callCached (fun _ => 7) ([] : CacheList Nat) "k" 0).1,
         (callCached (fun _ => 7) ([] : CacheList Nat) "k" 0).2.1, false) :=
  ⟨rfl, by decide, by decide,
    cached_second_call Nat (fun _ => 7) [] "k" 0 5 rfl (by decide) (by decide)⟩

/-- C10: the rendering loop over a schema-parsed advisory response builds
one row per entry: the index takes each entry's `day` verbatim (with the
placeholder 'N/A' when the field is missing, and no check against the
summary's dates), each audience column takes the corresponding
recommendation text or 'N/A', and the index and all three columns have
exactly the length of the entry list. -/
theorem render_one_row_per_entry (recs : List AdvEntry) :
    (renderRecommendations recs).1 =
        recs.map (fun rec => rec.day.getD "N/A") ∧
    (renderRecommendations recs).2.1 =
        recs.map (fun rec => ((rec.recommendations.bind
          (fun r => r.children_and_elderly)).getD "N/A")) ∧
    (renderRecommendations recs).2.2.1 =
        recs.map (fun rec => ((rec.recommendations.bind
          (fun r => r.people_with_morbidities)).getD "N/A")) ∧
    (renderRecommendations recs).2.2.2 =
        recs.map (fun rec => ((rec.recommendations.bind
          (fun r => r.adults)).getD "N/A")) ∧
    (renderRecommendations recs).1.length = recs.length ∧
    (renderRecommendations recs).2.1.length = recs.length ∧
    (renderRecommendations recs).2.2.1.length = recs.length ∧
    (renderRecommendations recs).2.2.2.length = recs.length := by
  have he := renderRecommendations_eq recs
  refine ⟨?_, ?_, ?_, ?_, ?_, ?_, ?_, ?_⟩ <;> rw [he] <;> simp
